import Mathlib

/-!
# Verification of the audio-scribe backend core

A shallow embedding of the request-handling logic of the audio-scribe
backend: the grammar-correction service (`fix_grammar` in
`src/backend/app/services/grammar_fixer.py`), the speech-recognition
wrapper (`_run_whisper_transcription` and `transcribe_audio_file` in
`src/backend/app/services/transcription.py`) and the two HTTP route
handlers (`src/backend/app/routes/transcribe.py`).

External effects are modelled explicitly: the sequence of HTTP responses
the remote correction service would return is an environment `Nat →
Attempt` (one entry per POST attempt the code might make); the recognizer
and audio converter behaviour is a `WhisperEnv`; the filesystem footprint
that matters to the cleanup invariants (does the staged upload file /
normalized WAV file currently exist?) is an explicit `FS` record threaded
through the functions. Python exceptions are `Except` values; every
handler of the source is a `match` on that `Except`.
-/

namespace AudioScribe

/-! ## JSON values and Python-semantics helpers

`Json` models the decoded value `response.json()` yields. Python `dict`s
are association lists (first binding wins, as in `List.lookup`).
-/

inductive Json where
  | null
  | bool (b : Bool)
  | num (n : Int)
  | str (s : String)
  | arr (xs : List Json)
  | obj (kvs : List (String × Json))

/-- The characters Python `str.strip()` removes (ASCII whitespace:
space, tab, newline, carriage return, vertical tab, form feed). -/
def pyIsSpace (c : Char) : Bool :=
  c = ' ' || c = '\t' || c = '\n' || c = '\r' || c = '\x0B' || c = '\x0C'

/-- Python `s.strip()`: drop leading and trailing whitespace. -/
def pyStrip (s : String) : String :=
  String.mk (((s.data.dropWhile pyIsSpace).reverse.dropWhile pyIsSpace).reverse)

/-- Python truthiness of a decoded JSON value (`if corrected_text:`):
`None`, `False`, `0`, `""`, `[]`, `{}` are falsy. -/
def pyTruthy : Json → Bool
  | .null => false
  | .bool b => b
  | .num n => n != 0
  | .str s => !s.isEmpty
  | .arr xs => !xs.isEmpty
  | .obj kvs => !kvs.isEmpty

/-- Python `value.get(key, default)`: succeeds only on a dict (anything
else raises `AttributeError`, modelled as `Except.error`). -/
def jsonGet (j : Json) (key : String) (default : Json) : Except Unit Json :=
  match j with
  | .obj kvs => .ok ((kvs.lookup key).getD default)
  | _ => .error ()

/-- Python `value[0]`: first element of a list (raising `IndexError` when
empty), first character of a string (raising `IndexError` when empty);
any other receiver raises (`TypeError` / `KeyError`). -/
def jsonIndex0 (j : Json) : Except Unit Json :=
  match j with
  | .arr [] => .error ()
  | .arr (x :: _) => .ok x
  | .str s =>
    match s.data with
    | [] => .error ()
    | c :: _ => .ok (.str (String.mk [c]))
  | _ => .error ()

/-! ## grammar_fixer.py -/

/-- What one POST attempt of `fix_grammar` observes. `fault = true` means
`client.post` itself raised a network-level error (no HTTP response);
otherwise `status` is the HTTP status code and `body` the decoded JSON
body (`none` when `response.json()` would raise on an unparsable body). -/
structure Attempt where
  fault : Bool
  status : Nat
  body : Option Json

/-- httpx `response.raise_for_status()` raises `HTTPStatusError` exactly
when the status is not a 2xx success status. -/
def raisesForStatus (status : Nat) : Bool :=
  !(200 ≤ status && status ≤ 299)

/-- How the `for attempt in range(4)` retry loop of `fix_grammar` ends:
`success body` when a response passed `raise_for_status` and the loop
broke out (with that response's decoded body), `raised` when an
exception (a re-raised `HTTPStatusError`, or a network fault from
`client.post`) escaped the loop to the outer handlers. -/
inductive LoopExit where
  | success (body : Option Json)
  | raised

/-- The retry loop of `fix_grammar`, lines 52–66 of `grammar_fixer.py`,
starting at attempt index `attempt` with `fuel` loop iterations left
(the real loop runs `attempt = 0, 1, 2, 3`, i.e. `attemptFrom env 0 4`).
Returns (number of POST attempts made, the list of backoff delays slept
in order, how the loop ended).  A retry (with delay `2 ^ attempt`)
happens only on an `HTTPStatusError` whose status is 429 or 503 and only
while `attempt < 3`; any other status error, and any network fault, is
raised to the outer handlers. -/
def attemptFrom (env : Nat → Attempt) : Nat → Nat → Nat × List Nat × LoopExit
  | _, 0 => (0, [], .raised)
  | attempt, fuel + 1 =>
    let a := env attempt
    if a.fault then
      (1, [], .raised)
    else if raisesForStatus a.status then
      if (a.status = 429 ∨ a.status = 503) ∧ attempt < 3 then
        let r := attemptFrom env (attempt + 1) fuel
        (r.1 + 1, 2 ^ attempt :: r.2.1, r.2.2)
      else
        (1, [], .raised)
    else
      (1, [], .success a.body)

/-- The whole retry loop as `fix_grammar` runs it. -/
def runAttempts (env : Nat → Attempt) : Nat × List Nat × LoopExit :=
  attemptFrom env 0 4

/-- Lines 70–72 of `grammar_fixer.py`: from the first candidate, the
chain `candidate.get('content', {}).get('parts', [{}])[0].get('text')`
(the last `get` has Python default `None`, modelled as `Json.null`). -/
def candidateText (candidate : Json) : Except Unit Json :=
  match jsonGet candidate "content" (.obj []) with
  | .error e => .error e
  | .ok content =>
    match jsonGet content "parts" (.arr [.obj []]) with
    | .error e => .error e
    | .ok parts =>
      match jsonIndex0 parts with
      | .error e => .error e
      | .ok part0 => jsonGet part0 "text" .null

/-- Lines 69–78 of `grammar_fixer.py`: extract the corrected text from
the decoded response body.  `.error ()` is a Python exception on the way
(IndexError on an empty list, AttributeError on a non-dict receiver or on
`.strip()` of a truthy non-string); `.ok none` is the source's
"API returned response, but no text found" branch (the extracted value
was falsy); `.ok (some s)` means a truthy string `s` was extracted. -/
def extractText (result : Json) : Except Unit (Option String) :=
  match jsonGet result "candidates" (.arr [.obj []]) with
  | .error e => .error e
  | .ok candidates =>
    match jsonIndex0 candidates with
    | .error e => .error e
    | .ok candidate =>
      match candidateText candidate with
      | .error e => .error e
      | .ok t =>
        if pyTruthy t then
          match t with
          | .str s => .ok (some s)
          | _ => .error ()
        else
          .ok none

/-- The function `fix_grammar` (grammar_fixer.py, lines 18–89) with its observable
trace: the returned value, the number of POST attempts made, and the
backoff delays slept.  `apiKey` is `os.getenv("GEMINI_API_KEY", "")`, so
the empty string covers both an unset and an empty variable.  Both outer
`except` handlers (lines 80–89) print and return `None`, so every
`LoopExit.raised`, every unparsable body and every extraction exception
maps to `none`; a truthy extracted string is returned `.strip()`ped. -/
def fix_grammar_run (apiKey text : String) (env : Nat → Attempt) :
    Option String × Nat × List Nat :=
  if text = "" then (none, 0, [])
  else if apiKey = "" then (none, 0, [])
  else
    let r := runAttempts env
    let res : Option String :=
      match r.2.2 with
      | .raised => none
      | .success none => none
      | .success (some body) =>
        match extractText body with
        | .error _ => none
        | .ok none => none
        | .ok (some s) => some (pyStrip s)
    (res, r.1, r.2.1)

/-- The value `fix_grammar` returns to its caller. -/
def fix_grammar (apiKey text : String) (env : Nat → Attempt) : Option String :=
  (fix_grammar_run apiKey text env).1

/-! ## transcription.py -/

/-- The filesystem footprint a request can leave: does the staged upload
file (the route's `tempfile.NamedTemporaryFile`) currently exist, and
does the normalized WAV file (`temp_wav_<pid>_<base>.wav`) currently
exist. -/
structure FS where
  upload : Bool
  wav : Bool

/-- Model of `if os.path.exists(wav_filename): os.remove(wav_filename)` — the
existence-guarded removal of the WAV file (transcription.py lines 38–39
and 53–54). -/
def removeWavIfExists (fs : FS) : FS :=
  if fs.wav then { fs with wav := false } else fs

/-- Model of `if os.path.exists(temp_file_path): os.remove(temp_file_path)` — the
existence-guarded removal of the staged upload (transcribe.py lines
63–64). -/
def removeUploadIfExists (fs : FS) : FS :=
  if fs.upload then { fs with upload := false } else fs

/-- The behaviour of the recognizer and audio-conversion collaborators
during one call of `_run_whisper_transcription`:
`modelLoaded` — whether `whisper.load_model` succeeded at process start
(`WHISPER_MODEL` is not `None`);
`convertOk` — whether `AudioSegment.from_file` + `export` succeed;
`convertPartialWav` — when conversion fails, whether the WAV output file
had already been (partially) written before the exception;
`transcribeText` — `some t` when `WHISPER_MODEL.transcribe` returns a
result whose `"text"` field is `t`, `none` when it raises. -/
structure WhisperEnv where
  modelLoaded : Bool
  convertOk : Bool
  convertPartialWav : Bool
  transcribeText : Option String

/-- The fixed diagnostic string of transcription.py line 25. -/
def modelFailedMessage : String :=
  "Whisper model failed to load at startup. Cannot transcribe."

/-- Step 1 of `_run_whisper_transcription` (lines 32–40): convert the
input to WAV with 500 ms leading silence.  On success the WAV file
exists (`.ok`).  On failure the `except` handler removes the partially
written WAV if it exists and the function returns `None` (`.error`
carries the filesystem state after that handler ran). -/
def convertToWav (env : WhisperEnv) (fs : FS) : Except FS FS :=
  if env.convertOk then
    .ok { fs with wav := true }
  else
    .error (removeWavIfExists { fs with wav := env.convertPartialWav })

/-- The function `_run_whisper_transcription` (transcription.py lines 20–54).
Returns the value the function returns (`Option String`: the diagnostic
string or the trimmed transcription on the `str` paths, `none` on the
failure paths) together with the filesystem state when it returns.
The transcription step's `finally` block removes the WAV file whether
`WHISPER_MODEL.transcribe` succeeded or raised. -/
def _run_whisper_transcription (env : WhisperEnv) (fs : FS) : Option String × FS :=
  if !env.modelLoaded then
    (some modelFailedMessage, fs)
  else
    match convertToWav env fs with
    | .error fs1 => (none, fs1)
    | .ok fs1 =>
      match env.transcribeText with
      | none => (none, removeWavIfExists fs1)
      | some t =>
        let transcribed_text := if t ≠ "" then pyStrip t else ""
        (some transcribed_text, removeWavIfExists fs1)

/-- The function `transcribe_audio_file` (transcription.py lines 56–70): runs
`_run_whisper_transcription` on a worker thread and passes a `str`
result through, anything else (`None`) becoming `None`. -/
def transcribe_audio_file (env : WhisperEnv) (fs : FS) : Option String × FS :=
  let r := _run_whisper_transcription env fs
  (match r.1 with
   | some t => some t
   | none => none,
   r.2)

/-! ## routes/transcribe.py -/

/-- An HTTP outcome of a route handler: a 200 JSON payload, or a raised
`HTTPException` with its status code and detail string. -/
inductive RouteResponse where
  | okTranscription (filename : String) (transcription : String)
  | okCorrected (corrected_text : String)
  | httpError (status : Nat) (detail : String)

/-- Python `str(e)` for a starlette/fastapi `HTTPException`:
`f"{status_code}: {detail}"`. -/
def httpExceptionStr (status : Nat) (detail : String) : String :=
  toString status ++ ": " ++ detail

/-- The environment of one `POST /transcribe` request: whether the
`file` argument is present and truthy, its client-supplied filename,
whether streaming the upload into the temp file raises (`copyFault =
some msg` models an exception whose `str` is `msg`), and the recognizer
collaborators' behaviour. -/
structure TranscribeEnv where
  filePresent : Bool
  filename : String
  copyFault : Option String
  whisper : WhisperEnv

/-- The route handler `create_transcription_route` (transcribe.py lines 21–64).  The
staged temp file exists once `NamedTemporaryFile(delete=False)` ran; the
`finally` block removes it with an existence check on every path out of
the `try`.  An `HTTPException` raised inside the `try` (the 500 for a
`None` transcription) is itself caught by `except Exception` and
re-wrapped with detail
`f"An error occurred during transcription: {str(e)}"`. -/
def create_transcription_route (env : TranscribeEnv) (fs : FS) : RouteResponse × FS :=
  if !env.filePresent then
    (.httpError 400 "No file was uploaded.", fs)
  else
    let fs1 : FS := { fs with upload := true }
    match env.copyFault with
    | some msg =>
      (.httpError 500 ("An error occurred during transcription: " ++ msg),
       removeUploadIfExists fs1)
    | none =>
      let r := transcribe_audio_file env.whisper fs1
      match r.1 with
      | none =>
        let inner := httpExceptionStr 500 "Transcription service failed to process the audio."
        (.httpError 500 ("An error occurred during transcription: " ++ inner),
         removeUploadIfExists r.2)
      | some t =>
        (.okTranscription env.filename t, removeUploadIfExists r.2)

/-- The route handler `fix_grammar_route` (transcribe.py lines 71–97).  Returns the HTTP
outcome together with whether `fix_grammar` was invoked and how many
POST attempts (network calls) were made. -/
def fix_grammar_route (text apiKey : String) (env : Nat → Attempt) :
    RouteResponse × Bool × Nat :=
  if text = "" ∨ text.length < 10 then
    (.httpError 400 "Text provided is too short for grammar correction.", false, 0)
  else
    let r := fix_grammar_run apiKey text env
    match r.1 with
    | none => (.httpError 500 "Grammar correction failed to return a result.", true, r.2.1)
    | some corrected => (.okCorrected corrected, true, r.2.1)


/-! ## Concrete environments used in the examples and witnesses -/

/-- A response sequence: every POST attempt is answered with HTTP 429. -/
def envAll429 : Nat → Attempt := fun _ => ⟨false, 429, some (.obj [])⟩

/-- The response sequence [429, 429, 200] (the third response carries an
empty JSON object body). -/
def envTwo429Then200 : Nat → Attempt := fun i =>
  if i < 2 then ⟨false, 429, none⟩ else ⟨false, 200, some (.obj [])⟩

/-- A single 200 response whose body is
`{"candidates": [{"content": {"parts": [{"text": t}]}}]}`. -/
def envWithText (t : Json) : Nat → Attempt := fun _ =>
  ⟨false, 200, some (.obj [("candidates", .arr [.obj [("content",
    .obj [("parts", .arr [.obj [("text", t)]])])]])])⟩

/-- A single 200 response whose body is `{"candidates": []}`. -/
def envEmptyCandidates : Nat → Attempt := fun _ =>
  ⟨false, 200, some (.obj [("candidates", .arr [])])⟩

/-- Statuses-plus-bodies presented as an `Attempt` environment with no
network-level faults: every attempt yields an HTTP response. -/
def httpEnv (s : Nat → Nat) (b : Nat → Option Json) : Nat → Attempt :=
  fun i => ⟨false, s i, b i⟩

/-! ## Helper lemmas about the retry loop -/

theorem attemptFrom_fst_le (env : Nat → Attempt) (start fuel : Nat) :
    (attemptFrom env start fuel).1 ≤ fuel := by
  induction fuel generalizing start with
  | zero => simp [attemptFrom]
  | succ n ih =>
    simp only [attemptFrom]
    by_cases hfault : (env start).fault
    · simp [hfault]
    · by_cases hs : raisesForStatus (env start).status
      · by_cases hretry : ((env start).status = 429 ∨ (env start).status = 503) ∧ start < 3
        · simp only [hfault, hs, hretry, if_true, if_false, Bool.false_eq_true, if_neg]
          simpa using Nat.succ_le_succ (ih (start + 1))
        · simp [hfault, hs, hretry]
      · simp [hfault, hs]

theorem attemptFrom_fst_pos (env : Nat → Attempt) (start fuel : Nat) (h : 0 < fuel) :
    1 ≤ (attemptFrom env start fuel).1 := by
  cases fuel with
  | zero => omega
  | succ n =>
    simp only [attemptFrom]
    by_cases hfault : (env start).fault
    · simp [hfault]
    · by_cases hs : raisesForStatus (env start).status
      · by_cases hretry : ((env start).status = 429 ∨ (env start).status = 503) ∧ start < 3
        · simp [hfault, hs, hretry]
        · simp [hfault, hs, hretry]
      · simp [hfault, hs]

theorem attemptFrom_delays (env : Nat → Attempt) (start fuel : Nat) (h : start + fuel = 4) :
    (attemptFrom env start fuel).2.1 =
      (List.range ((attemptFrom env start fuel).1 - 1)).map (fun k => 2 ^ (start + k)) := by
  induction fuel generalizing start with
  | zero => simp [attemptFrom]
  | succ n ih =>
    simp only [attemptFrom]
    by_cases hfault : (env start).fault
    · simp [hfault]
    · by_cases hs : raisesForStatus (env start).status
      · by_cases hretry : ((env start).status = 429 ∨ (env start).status = 503) ∧ start < 3
        · simp only [hfault, hs, hretry, Bool.false_eq_true, if_false, if_true, and_self]
          have hn : 0 < n := by omega
          have hpos := attemptFrom_fst_pos env (start + 1) n hn
          have ihc := ih (start + 1) (by omega)
          obtain ⟨m, hm⟩ : ∃ m, (attemptFrom env (start + 1) n).1 = m + 1 :=
            ⟨(attemptFrom env (start + 1) n).1 - 1, by omega⟩
          simp only [ihc, hm]
          simp only [Nat.add_sub_cancel, Nat.succ_sub_one]
          rw [List.range_succ_eq_map]
          simp only [List.map_cons, List.map_map, Nat.add_zero]
          congr 1
          apply List.map_congr_left
          intro a _
          simp only [Function.comp_apply]
          congr 1
          omega
        · simp [hfault, hs, hretry]
      · simp [hfault, hs]

theorem attemptFrom_retry_iff (env : Nat → Attempt) (hf : ∀ i, (env i).fault = false)
    (fuel : Nat) : ∀ (start : Nat), start + fuel = 4 → ∀ (k : Nat),
      (k + 1 < (attemptFrom env start fuel).1 ↔
        (k < (attemptFrom env start fuel).1 ∧
          ((env (start + k)).status = 429 ∨ (env (start + k)).status = 503) ∧
          start + k < 3)) := by
  induction fuel with
  | zero =>
    intro start h k
    simp [attemptFrom]
  | succ n ih =>
    intro start h k
    by_cases hs : raisesForStatus (env start).status
    · by_cases hretry : ((env start).status = 429 ∨ (env start).status = 503) ∧ start < 3
      · have hred : (attemptFrom env start (n + 1)).1 = (attemptFrom env (start + 1) n).1 + 1 := by
          simp [attemptFrom, hf start, hs, hretry]
        rw [hred]
        have hn : 0 < n := by omega
        have hpos := attemptFrom_fst_pos env (start + 1) n hn
        cases k with
        | zero =>
          simp only [Nat.add_zero]
          constructor
          · intro _
            exact ⟨by omega, hretry.1, by omega⟩
          · intro _
            omega
        | succ k' =>
          have ihk := ih (start + 1) (by omega) k'
          have hidx : start + 1 + k' = start + (k' + 1) := by omega
          rw [hidx] at ihk
          constructor
          · intro hlt
            have h1 : k' + 1 < (attemptFrom env (start + 1) n).1 := by omega
            obtain ⟨hklt, hst, hlt3⟩ := ihk.mp h1
            exact ⟨by omega, hst, hlt3⟩
          · rintro ⟨hklt, hst, hlt3⟩
            have h2 : k' + 1 < (attemptFrom env (start + 1) n).1 :=
              ihk.mpr ⟨by omega, hst, hlt3⟩
            omega
      · have hred : (attemptFrom env start (n + 1)).1 = 1 := by
          simp [attemptFrom, hf start, hs, hretry]
        rw [hred]
        constructor
        · intro hlt
          omega
        · rintro ⟨hklt, hst, hlt3⟩
          exfalso
          have hk0 : k = 0 := by omega
          subst hk0
          simp only [Nat.add_zero] at hst hlt3
          exact hretry ⟨hst, by omega⟩
    · have hred : (attemptFrom env start (n + 1)).1 = 1 := by
        simp [attemptFrom, hf start, hs]
      rw [hred]
      have h2xx : 200 ≤ (env start).status ∧ (env start).status ≤ 299 := by
        simpa [raisesForStatus] using hs
      constructor
      · intro hlt
        omega
      · rintro ⟨hklt, hst, hlt3⟩
        exfalso
        have hk0 : k = 0 := by omega
        subst hk0
        simp only [Nat.add_zero] at hst
        omega


/-! ## Helper lemmas about `fix_grammar`'s response handling -/

theorem fix_grammar_none_of_raised (apiKey text : String) (env : Nat → Attempt)
    (hexit : (runAttempts env).2.2 = LoopExit.raised) :
    fix_grammar apiKey text env = none := by
  unfold fix_grammar fix_grammar_run
  by_cases ht : text = ""
  · simp [ht]
  · by_cases hk : apiKey = ""
    · simp [ht, hk]
    · simp [ht, hk, hexit]

theorem fix_grammar_none_of_extract_error (apiKey text : String) (env : Nat → Attempt)
    (body : Json) (hexit : (runAttempts env).2.2 = LoopExit.success (some body))
    (hext : extractText body = Except.error ()) :
    fix_grammar apiKey text env = none := by
  unfold fix_grammar fix_grammar_run
  by_cases ht : text = ""
  · simp [ht]
  · by_cases hk : apiKey = ""
    · simp [ht, hk]
    · simp [ht, hk, hexit, hext]

theorem fix_grammar_none_of_extract_ok_none (apiKey text : String) (env : Nat → Attempt)
    (body : Json) (hexit : (runAttempts env).2.2 = LoopExit.success (some body))
    (hext : extractText body = Except.ok none) :
    fix_grammar apiKey text env = none := by
  unfold fix_grammar fix_grammar_run
  by_cases ht : text = ""
  · simp [ht]
  · by_cases hk : apiKey = ""
    · simp [ht, hk]
    · simp [ht, hk, hexit, hext]

theorem extractText_of_candidates_empty (kvs : List (String × Json))
    (h : kvs.lookup "candidates" = some (.arr [])) :
    extractText (.obj kvs) = Except.error () := by
  simp [extractText, jsonGet, h, jsonIndex0]

theorem extractText_of_candidateText_error (kvs : List (String × Json))
    (c : Json) (cs : List Json)
    (h : kvs.lookup "candidates" = some (.arr (c :: cs)))
    (hc : candidateText c = Except.error ()) :
    extractText (.obj kvs) = Except.error () := by
  simp [extractText, jsonGet, h, jsonIndex0, hc]

theorem extractText_of_candidateText_falsy (kvs : List (String × Json))
    (c : Json) (cs : List Json) (t : Json)
    (h : kvs.lookup "candidates" = some (.arr (c :: cs)))
    (hc : candidateText c = Except.ok t) (ht : pyTruthy t = false) :
    extractText (.obj kvs) = Except.ok none := by
  simp [extractText, jsonGet, h, jsonIndex0, hc, ht]




/-! ## The claims -/

/-- C1: `fix_grammar` makes at most 4 POST attempts; for a fault-free
response sequence, a retry follows attempt `i` (0-indexed) exactly when
that attempt's status is 429 or 503 and fewer than 4 attempts have been
made (`i < 3`), and the delay slept before the retry following attempt
`i` is `2 ^ i` (delays 1, 2, 4; none before the first attempt).  For the
response sequence [429, 429, 200] exactly 3 attempts occur with delays
[1, 2]; for [429, 429, 429, 429] the loop stops after 4 attempts with
delays [1, 2, 4] and `fix_grammar` returns `none`. -/
theorem fix_grammar_retry_policy :
    ∀ (s : Nat → Nat) (b : Nat → Option Json),
      (1 ≤ (runAttempts (httpEnv s b)).1 ∧ (runAttempts (httpEnv s b)).1 ≤ 4) ∧
      ((runAttempts (httpEnv s b)).2.1 =
        (List.range ((runAttempts (httpEnv s b)).1 - 1)).map (fun i => 2 ^ i)) ∧
      (∀ i, i + 1 < (runAttempts (httpEnv s b)).1 ↔
        (i < (runAttempts (httpEnv s b)).1 ∧ (s i = 429 ∨ s i = 503) ∧ i < 3)) ∧
      (runAttempts envTwo429Then200).1 = 3 ∧
      (runAttempts envTwo429Then200).2.1 = [1, 2] ∧
      (runAttempts envAll429).1 = 4 ∧
      (runAttempts envAll429).2.1 = [1, 2, 4] ∧
      fix_grammar "key" "this is a test." envAll429 = none := by
  intro s b
  refine ⟨⟨attemptFrom_fst_pos _ 0 4 (by omega), attemptFrom_fst_le _ 0 4⟩,
    ?_, ?_, rfl, rfl, rfl, rfl, rfl⟩
  · simpa using attemptFrom_delays (httpEnv s b) 0 4 rfl
  · intro i
    simpa [httpEnv] using attemptFrom_retry_iff (httpEnv s b) (fun _ => rfl) 4 0 rfl i

/-- C3: `fix_grammar` never lets an exception reach its caller: for every
API key, every input text and every behaviour of the remote service, it
either returns `none` (all failure paths) or returns the extracted
corrected text with leading/trailing whitespace stripped. -/
theorem fix_grammar_total_result :
    ∀ (apiKey text : String) (env : Nat → Attempt),
      fix_grammar apiKey text env = none ∨
      ∃ (body : Json) (s : String),
        (runAttempts env).2.2 = LoopExit.success (some body) ∧
        extractText body = Except.ok (some s) ∧
        fix_grammar apiKey text env = some (pyStrip s) := by
  intro apiKey text env
  by_cases ht : text = ""
  · left; simp [fix_grammar, fix_grammar_run, ht]
  · by_cases hk : apiKey = ""
    · left; simp [fix_grammar, fix_grammar_run, ht, hk]
    · cases hexit : (runAttempts env).2.2 with
      | raised => exact Or.inl (fix_grammar_none_of_raised apiKey text env hexit)
      | success ob =>
        cases ob with
        | none => left; simp [fix_grammar, fix_grammar_run, ht, hk, hexit]
        | some body =>
          cases hext : extractText body with
          | error e =>
            exact Or.inl (fix_grammar_none_of_extract_error apiKey text env body hexit hext)
          | ok o =>
            cases o with
            | none =>
              exact Or.inl (fix_grammar_none_of_extract_ok_none apiKey text env body hexit hext)
            | some s =>
              right
              exact ⟨body, s, rfl, hext, by
                simp [fix_grammar, fix_grammar_run, ht, hk, hexit, hext]⟩

/-- C6: with the credential environment variable unset or empty, for any
non-empty input text `fix_grammar` returns `none` having made zero POST
attempts and slept no backoff delay. -/
theorem fix_grammar_missing_key_fails_fast :
    ∀ (text : String) (env : Nat → Attempt), text ≠ "" →
      fix_grammar_run "" text env = (none, 0, []) := by
  intro text env ht
  simp [fix_grammar_run, ht]

/-- C6 witness at a concrete non-empty text. -/
theorem fix_grammar_missing_key_fails_fast_witness :
    fix_grammar_run "" "this is a test." envAll429 = (none, 0, []) :=
  fix_grammar_missing_key_fails_fast "this is a test." envAll429 (by decide)




/-- C7: for every 2xx response whose JSON body is an object with an empty
`candidates` list, or whose first candidate's
`content → parts → [0] → text` chain yields no value (Python `None`) or
raises on the way, `fix_grammar` returns `none` — no exception reaches
the caller. -/
theorem fix_grammar_malformed_body_none :
    ∀ (apiKey text : String) (env : Nat → Attempt) (kvs : List (String × Json)),
      (runAttempts env).2.2 = LoopExit.success (some (.obj kvs)) →
      ((kvs.lookup "candidates" = some (.arr []) → fix_grammar apiKey text env = none) ∧
       (∀ (c : Json) (cs : List Json),
         kvs.lookup "candidates" = some (.arr (c :: cs)) →
         candidateText c = Except.ok .null ∨ candidateText c = Except.error () →
         fix_grammar apiKey text env = none)) := by
  intro apiKey text env kvs hexit
  constructor
  · intro hempty
    exact fix_grammar_none_of_extract_error apiKey text env _ hexit
      (extractText_of_candidates_empty kvs hempty)
  · intro c cs hcand hc
    cases hc with
    | inl h =>
      exact fix_grammar_none_of_extract_ok_none apiKey text env _ hexit
        (extractText_of_candidateText_falsy kvs c cs .null hcand h rfl)
    | inr h =>
      exact fix_grammar_none_of_extract_error apiKey text env _ hexit
        (extractText_of_candidateText_error kvs c cs hcand h)

/-- C7 witness: a 200 response with body `{"candidates": []}` makes
`fix_grammar` return `none`. -/
theorem fix_grammar_malformed_body_none_witness :
    fix_grammar "key" "this is a test." envEmptyCandidates = none :=
  (fix_grammar_malformed_body_none "key" "this is a test." envEmptyCandidates
    [("candidates", Json.arr [])] rfl).1 rfl

/-- C10 counterexample: `fix_grammar` CAN return the empty string — when
the extracted text part is non-empty whitespace (here `" "`), it is
truthy, so the code returns it stripped, which is `""`. -/
theorem fix_grammar_returns_empty_string :
    fix_grammar "key" "this is a test." (envWithText (.str " ")) = some "" := by
  rfl

/-- C10 (amended): for every 2xx response in which the extracted first
text part is the empty string (falsy) or absent (Python `None`),
`fix_grammar` returns `none`; it can still return the empty string for a
whitespace-only text part (see the counterexample). -/
theorem fix_grammar_empty_text_part_none :
    ∀ (apiKey text : String) (env : Nat → Attempt) (kvs : List (String × Json))
      (c : Json) (cs : List Json),
      (runAttempts env).2.2 = LoopExit.success (some (.obj kvs)) →
      kvs.lookup "candidates" = some (.arr (c :: cs)) →
      (candidateText c = Except.ok (.str "") ∨ candidateText c = Except.ok .null) →
      fix_grammar apiKey text env = none := by
  intro apiKey text env kvs c cs hexit hcand hc
  cases hc with
  | inl h =>
    exact fix_grammar_none_of_extract_ok_none apiKey text env _ hexit
      (extractText_of_candidateText_falsy kvs c cs (.str "") hcand h rfl)
  | inr h =>
    exact fix_grammar_none_of_extract_ok_none apiKey text env _ hexit
      (extractText_of_candidateText_falsy kvs c cs .null hcand h rfl)

/-- C10 witness: a 200 response whose text part is the empty string makes
`fix_grammar` return `none`. -/
theorem fix_grammar_empty_text_part_none_witness :
    fix_grammar "key" "this is a test." (envWithText (.str "")) = none :=
  fix_grammar_empty_text_part_none "key" "this is a test." (envWithText (.str ""))
    [("candidates", Json.arr [Json.obj [("content", Json.obj [("parts",
      Json.arr [Json.obj [("text", Json.str "")]])])]])]
    (Json.obj [("content", Json.obj [("parts", Json.arr [Json.obj [("text", Json.str "")]])])])
    [] rfl rfl (Or.inl rfl)




/-! ## Helper lemmas about the filesystem footprint -/

theorem removeWavIfExists_wav (fs : FS) : (removeWavIfExists fs).wav = false := by
  by_cases h : fs.wav <;> simp [removeWavIfExists, h]

theorem removeWavIfExists_upload (fs : FS) :
    (removeWavIfExists fs).upload = fs.upload := by
  by_cases h : fs.wav <;> simp [removeWavIfExists, h]

theorem removeUploadIfExists_upload (fs : FS) :
    (removeUploadIfExists fs).upload = false := by
  by_cases h : fs.upload <;> simp [removeUploadIfExists, h]

theorem removeUploadIfExists_wav (fs : FS) :
    (removeUploadIfExists fs).wav = fs.wav := by
  by_cases h : fs.upload <;> simp [removeUploadIfExists, h]

theorem run_whisper_wav_false (wenv : WhisperEnv) (fs : FS) (h : fs.wav = false) :
    (_run_whisper_transcription wenv fs).2.wav = false := by
  unfold _run_whisper_transcription
  by_cases hm : wenv.modelLoaded
  · by_cases hc : wenv.convertOk
    · cases htr : wenv.transcribeText <;>
        simp [hm, hc, htr, convertToWav, removeWavIfExists_wav]
    · simp [hm, hc, convertToWav, removeWavIfExists_wav]
  · simp [hm, h]

theorem run_whisper_upload_eq (wenv : WhisperEnv) (fs : FS) :
    (_run_whisper_transcription wenv fs).2.upload = fs.upload := by
  unfold _run_whisper_transcription
  by_cases hm : wenv.modelLoaded
  · by_cases hc : wenv.convertOk
    · cases htr : wenv.transcribeText <;>
        simp [hm, hc, htr, convertToWav, removeWavIfExists_upload]
    · simp [hm, hc, convertToWav, removeWavIfExists_upload]
  · simp [hm]

theorem transcribe_audio_file_snd (wenv : WhisperEnv) (fs : FS) :
    (transcribe_audio_file wenv fs).2 = (_run_whisper_transcription wenv fs).2 := by
  simp [transcribe_audio_file]




/-- C2: temporary files are always cleaned up.  Starting a request with
neither temp file present: after `create_transcription_route` returns,
on every branch, neither the staged upload file nor the WAV file exists.
Moreover `_run_whisper_transcription` never leaves a WAV file behind,
and when audio conversion fails the conversion step itself removes its
partially written output before returning. -/
theorem temp_files_cleanup :
    ∀ (env : TranscribeEnv) (wenv : WhisperEnv) (fs : FS),
      ((create_transcription_route env ⟨false, false⟩).2.upload = false ∧
       (create_transcription_route env ⟨false, false⟩).2.wav = false) ∧
      ((_run_whisper_transcription wenv { fs with wav := false }).2.wav = false) ∧
      (wenv.convertOk = false →
        ∃ fs', convertToWav wenv fs = Except.error fs' ∧ fs'.wav = false) := by
  intro env wenv fs
  refine ⟨⟨?_, ?_⟩, run_whisper_wav_false wenv _ rfl, ?_⟩
  · by_cases hfile : env.filePresent
    · cases hcopy : env.copyFault with
      | some msg =>
        simp [create_transcription_route, hfile, hcopy, removeUploadIfExists_upload]
      | none =>
        cases hres : (transcribe_audio_file env.whisper
            { (⟨false, false⟩ : FS) with upload := true }).1 <;>
          simp [create_transcription_route, hfile, hcopy, hres, removeUploadIfExists_upload]
    · simp [create_transcription_route, hfile]
  · by_cases hfile : env.filePresent
    · cases hcopy : env.copyFault with
      | some msg =>
        simp [create_transcription_route, hfile, hcopy, removeUploadIfExists_wav]
      | none =>
        cases hres : (transcribe_audio_file env.whisper
            { (⟨false, false⟩ : FS) with upload := true }).1 <;>
          simp [create_transcription_route, hfile, hcopy, hres, removeUploadIfExists_wav,
            transcribe_audio_file_snd] <;>
          exact run_whisper_wav_false env.whisper _ rfl
    · simp [create_transcription_route, hfile]
  · intro hc
    exact ⟨removeWavIfExists { fs with wav := wenv.convertPartialWav },
      by simp [convertToWav, hc], removeWavIfExists_wav _⟩




/-- C4: when the whisper model failed to initialize at process start,
`_run_whisper_transcription` returns the fixed diagnostic string (and
touches nothing); when the model is loaded but conversion fails, or
recognition raises, it returns `none` — never the diagnostic string. -/
theorem whisper_model_unavailable_diagnostic :
    ∀ (env : WhisperEnv) (fs : FS),
      (env.modelLoaded = false →
        _run_whisper_transcription env fs = (some modelFailedMessage, fs)) ∧
      (env.modelLoaded = true → env.convertOk = false →
        (_run_whisper_transcription env fs).1 = none) ∧
      (env.modelLoaded = true → env.convertOk = true → env.transcribeText = none →
        (_run_whisper_transcription env fs).1 = none) := by
  intro env fs
  refine ⟨?_, ?_, ?_⟩
  · intro h
    simp [_run_whisper_transcription, h]
  · intro hm hc
    simp [_run_whisper_transcription, hm, convertToWav, hc]
  · intro hm hc htr
    simp [_run_whisper_transcription, hm, convertToWav, hc, htr]

/-- C9: on a successful recognition the wrapper returns the model's text
with leading and trailing whitespace stripped; when the model produced no
speech (`""`), the result is `some ""` — a success value distinct from
the failure sentinel `none`. -/
theorem whisper_success_result_trimmed :
    ∀ (env : WhisperEnv) (fs : FS) (t : String),
      env.modelLoaded = true → env.convertOk = true → env.transcribeText = some t →
      ((_run_whisper_transcription env fs).1 = some (pyStrip t) ∧
       (transcribe_audio_file env fs).1 = some (pyStrip t) ∧
       some "" ≠ (none : Option String)) := by
  intro env fs t hm hc htr
  have h1 : (_run_whisper_transcription env fs).1 = some (pyStrip t) := by
    by_cases ht : t = ""
    · subst ht
      simp [_run_whisper_transcription, hm, convertToWav, hc, htr]
      rfl
    · simp [_run_whisper_transcription, hm, convertToWav, hc, htr, ht]
  refine ⟨h1, ?_, by simp⟩
  simp [transcribe_audio_file, h1]

/-- C9 witness: a recognizer output of `" padded text "` is returned
stripped, and an empty recognizer output is returned as `some ""`. -/
theorem whisper_success_result_trimmed_witness :
    (_run_whisper_transcription ⟨true, true, false, some " padded text "⟩
      ⟨false, false⟩).1 = some "padded text" := by
  have h := (whisper_success_result_trimmed ⟨true, true, false, some " padded text "⟩
    ⟨false, false⟩ " padded text " rfl rfl rfl).1
  exact h

/-- C5: `fix_grammar_route` rejects text shorter than 10 characters with
a 400 and never invokes the correction service (zero network calls); for
text of length at least 10 it invokes the service. -/
theorem fix_grammar_route_length_gate :
    ∀ (text apiKey : String) (env : Nat → Attempt),
      (text.length < 10 →
        fix_grammar_route text apiKey env =
          (.httpError 400 "Text provided is too short for grammar correction.",
           false, 0)) ∧
      (10 ≤ text.length → (fix_grammar_route text apiKey env).2.1 = true) := by
  intro text apiKey env
  constructor
  · intro hlen
    simp [fix_grammar_route, hlen]
  · intro hlen
    have hne : ¬(text = "" ∨ text.length < 10) := by
      rintro (h | h)
      · subst h
        simp at hlen
      · omega
    cases hres : (fix_grammar_run apiKey text env).1 <;>
      simp [fix_grammar_route, hne, hres]

/-- C8: with a file present and staging succeeding, if the recognizer
wrapper returns text `t` the route answers 200 with the original
filename and `t`; if the wrapper returns `none`, it answers 500 with a
detail containing "Transcription service failed". -/
theorem transcribe_route_responses :
    ∀ (env : TranscribeEnv) (fs : FS) (t : String),
      env.filePresent = true → env.copyFault = none →
      (((transcribe_audio_file env.whisper { fs with upload := true }).1 = some t →
        (create_transcription_route env fs).1 =
          RouteResponse.okTranscription env.filename t) ∧
       ((transcribe_audio_file env.whisper { fs with upload := true }).1 = none →
        ∃ d, (create_transcription_route env fs).1 = RouteResponse.httpError 500 d ∧
          ∃ before after, d = before ++ "Transcription service failed" ++ after)) := by
  intro env fs t hfile hcopy
  constructor
  · intro hres
    simp [create_transcription_route, hfile, hcopy, hres]
  · intro hres
    refine ⟨"An error occurred during transcription: " ++
        httpExceptionStr 500 "Transcription service failed to process the audio.",
      by simp [create_transcription_route, hfile, hcopy, hres],
      "An error occurred during transcription: 500: ", " to process the audio.", ?_⟩
    decide



/-- C8 witness: uploading "test.mp3" with the recognizer producing
"This is a test transcription." yields a 200 payload echoing both. -/
theorem transcribe_route_responses_witness :
    (create_transcription_route
      ⟨true, "test.mp3", none, ⟨true, true, false, some "This is a test transcription."⟩⟩
      ⟨false, false⟩).1 =
      RouteResponse.okTranscription "test.mp3" "This is a test transcription." := by
  have h := (transcribe_route_responses
    ⟨true, "test.mp3", none, ⟨true, true, false, some "This is a test transcription."⟩⟩
    ⟨false, false⟩ "This is a test transcription." rfl rfl).1 rfl
  exact h

end AudioScribe
